import Mathlib

/-!
Shallow embedding of the gitback admin panel backend
(`src/backend/app/routers/admin.py` and `src/backend/app/routers/settings.py`).

The remote Appwrite document store is an external collaborator; each endpoint
takes it as an oracle function from the query it sends to the store's answer
(`Except String _`, the `String` being the exception message `str(e)`).
Endpoints that the claims measure for "how many store calls happen" also
return the list of queries sent, in order.

The settings JSON file is modelled as a `FileRead` state: absent, unreadable
or unparsable (an exception with a message), or a successfully parsed JSON
object (an association list of string keys to JSON values).
-/

/-- String containment helpers: `seqLeads needle hay` is true when `needle`
is an initial segment of `hay`; `seqInside` when it occurs anywhere. -/
def seqLeads : List Char → List Char → Bool
  | [], _ => true
  | _ :: _, [] => false
  | a :: as, b :: bs => a == b && seqLeads as bs

/-- Occurrence of `needle` anywhere inside `hay`. -/
def seqInside (needle : List Char) : List Char → Bool
  | [] => seqLeads needle []
  | c :: rest => seqLeads needle (c :: rest) || seqInside needle rest

/-- Python `needle in hay` on strings. -/
def strHas (hay needle : String) : Bool :=
  seqInside needle.data hay.data

/-- Python `str.lower()`, done characterwise. -/
def pyLower (s : String) : String :=
  ⟨s.data.map Char.toLower⟩

/-- An HTTPException: status code and detail message. -/
structure HttpError where
  status : Nat
  detail : String
  deriving DecidableEq, Repr

/-- A registration document, opaque to this system: a bag of fields. -/
abbrev Doc := List (String × String)

/-- The Appwrite query primitives the routers build
(`appwrite.query.Query.equal/search/limit/offset/order_desc`). -/
inductive AppwriteQuery where
  | equal (attr value : String)
  | search (attr value : String)
  | limit (n : Nat)
  | offset (n : Nat)
  | orderDesc (attr : String)
  deriving DecidableEq, Repr

/-- The store's answer to `list_documents`: `{"documents": [...], "total": n}`. -/
structure ListResp where
  documents : List Doc
  total : Nat
  deriving DecidableEq, Repr

/-- The list endpoint's response body `{data, total, page, limit}`. -/
structure ListOut where
  data : List Doc
  total : Nat
  page : Nat
  limit : Nat
  deriving DecidableEq, Repr

/-- The store oracle for `list_documents`: the answer to each query list. -/
abbrev ListStore := List AppwriteQuery → Except String ListResp

/-- Status filter of `list_registrations`
(`if status and status in ["pending", "approved", "rejected"]`):
Python truthiness makes the empty string skip the filter. -/
def statusQueries : Option String → List AppwriteQuery
  | some s =>
      if s != "" && (s == "pending" || s == "approved" || s == "rejected") then
        [.equal "status" s]
      else []
  | none => []

/-- Search filter of `list_registrations` (`if search:`). -/
def searchQueries : Option String → List AppwriteQuery
  | some s => if s != "" then [.search "team_name" s] else []
  | none => []

/-- The full query list of the first `list_documents` call:
filters plus limit, offset `(page - 1) * limit`, order by creation descending. -/
def fullQueries (page lim : Nat) (search status : Option String) :
    List AppwriteQuery :=
  statusQueries status ++ searchQueries search ++
    [.limit lim, .offset ((page - 1) * lim), .orderDesc "$createdAt"]

/-- The fallback query list: pagination only, same limit and offset. -/
def fallbackQueries (page lim : Nat) : List AppwriteQuery :=
  [.limit lim, .offset ((page - 1) * lim)]

/-- GET `/api/admin/registrations` (`list_registrations` in admin.py),
returning the HTTP outcome together with the trace of store calls made.
On a first failure whose message contains "search" (case-insensitively) it
retries once with pagination-only queries; a failing retry falls through to
the original 500 (`except: pass` then `raise HTTPException(500, ...)`). -/
def list_registrations (store : ListStore) (page lim : Nat)
    (search status : Option String) :
    Except HttpError ListOut × List (List AppwriteQuery) :=
  let q := fullQueries page lim search status
  match store q with
  | .ok r => (.ok ⟨r.documents, r.total, page, lim⟩, [q])
  | .error e =>
      if strHas (pyLower e) "search" then
        match store (fallbackQueries page lim) with
        | .ok r =>
            (.ok ⟨r.documents, r.total, page, lim⟩, [q, fallbackQueries page lim])
        | .error _ =>
            (.error ⟨500, "Failed to list registrations: " ++ e⟩,
             [q, fallbackQueries page lim])
      else
        (.error ⟨500, "Failed to list registrations: " ++ e⟩, [q])

/-- The login endpoint's user value. -/
structure UserInfo where
  username : String
  role : String
  loginTime : String
  deriving DecidableEq, Repr

/-- The login endpoint's success body. -/
structure LoginResp where
  success : Bool
  message : String
  user : Option UserInfo
  deriving DecidableEq, Repr

/-- POST `/api/admin/login` (`admin_login` in admin.py); `now` is
`datetime.utcnow().isoformat()`. Credentials are checked against the two
hardcoded constants; every failure raises the same 401. -/
def admin_login (now username password : String) : Except HttpError LoginResp :=
  if username == "admin" && password == "0000" then
    .ok ⟨true, "Login successful", some ⟨"admin", "administrator", now⟩⟩
  else
    .error ⟨401, "Invalid credentials"⟩

/-- Detection of a not-found store failure
(`"404" in str(e) or "not found" in str(e).lower()`). -/
def isNotFoundSignal (e : String) : Bool :=
  strHas e "404" || strHas (pyLower e) "not found"

/-- GET `/api/admin/registrations/{id}` (`get_registration` in admin.py). -/
def get_registration (store : String → Except String Doc) (id : String) :
    Except HttpError Doc :=
  match store id with
  | .ok d => .ok d
  | .error e =>
      if isNotFoundSignal e then .error ⟨404, "Registration not found"⟩
      else .error ⟨500, "Failed to get registration: " ++ e⟩

/-- The status-update endpoint's success body `{success, message, data}`. -/
structure UpdOut where
  success : Bool
  message : String
  data : Doc
  deriving DecidableEq, Repr

/-- PATCH `/api/admin/registrations/{id}` (`update_registration_status` in
admin.py), returning the HTTP outcome and the number of store calls made.
The status enum is validated before the `try` block, so an invalid status
makes zero store calls. -/
def update_registration_status (store : String → String → Except String Doc)
    (id st : String) : Except HttpError UpdOut × Nat :=
  if !(st == "pending" || st == "approved" || st == "rejected") then
    (.error ⟨400, "Invalid status. Must be: pending, approved, or rejected"⟩, 0)
  else
    match store id st with
    | .ok d => (.ok ⟨true, "Status updated to " ++ st, d⟩, 1)
    | .error e =>
        if isNotFoundSignal e then (.error ⟨404, "Registration not found"⟩, 1)
        else (.error ⟨500, "Failed to update registration: " ++ e⟩, 1)

/-- The delete endpoint's success body. -/
structure DelOut where
  success : Bool
  message : String
  deriving DecidableEq, Repr

/-- DELETE `/api/admin/registrations/{id}` (`delete_registration` in admin.py). -/
def delete_registration (store : String → Except String Unit) (id : String) :
    Except HttpError DelOut :=
  match store id with
  | .ok _ => .ok ⟨true, "Registration deleted successfully"⟩
  | .error e =>
      if isNotFoundSignal e then .error ⟨404, "Registration not found"⟩
      else .error ⟨500, "Failed to delete registration: " ++ e⟩

/-- The stats endpoint's body. -/
structure StatsResp where
  total : Nat
  pending : Nat
  approved : Nat
  rejected : Nat
  deriving DecidableEq, Repr

/-- Query list of the total count in `get_stats`. -/
def statsQueryTotal : List AppwriteQuery := [.limit 1]

/-- Query list of a per-status count in `get_stats`. -/
def statsQueryFor (st : String) : List AppwriteQuery :=
  [.equal "status" st, .limit 1]

/-- GET `/api/admin/stats` (`get_stats` in admin.py): four independent count
queries inside one `try`; any exception yields all-zero counts (fail-soft),
so the endpoint never errors. -/
def get_stats (store : ListStore) : StatsResp :=
  match store statsQueryTotal with
  | .error _ => ⟨0, 0, 0, 0⟩
  | .ok t =>
    match store (statsQueryFor "pending") with
    | .error _ => ⟨0, 0, 0, 0⟩
    | .ok p =>
      match store (statsQueryFor "approved") with
      | .error _ => ⟨0, 0, 0, 0⟩
      | .ok a =>
        match store (statsQueryFor "rejected") with
        | .error _ => ⟨0, 0, 0, 0⟩
        | .ok r => ⟨t.total, p.total, a.total, r.total⟩

/-!
Settings router (`settings.py`). The JSON value type covers what a settings
file can hold at a key; the mapping is an association list (Python dict with
unique keys; lookup and assignment act on the first occurrence).
-/

/-- A JSON value stored in the settings file. -/
inductive JVal where
  | bool (b : Bool)
  | str (s : String)
  | num (n : Int)
  | null
  deriving DecidableEq, Repr

/-- The parsed settings mapping. -/
abbrev SettingsMap := List (String × JVal)

/-- Outcome of attempting to read the settings file: absent
(`os.path.exists` false), an exception while opening or parsing it
(carrying `str(e)`), or a successfully parsed JSON object. -/
inductive FileRead where
  | absent
  | failure (msg : String)
  | content (m : SettingsMap)
  deriving DecidableEq, Repr

/-- `DEFAULT_SETTINGS` in settings.py. -/
def DEFAULT_SETTINGS : SettingsMap := [("registration_open", .bool true)]

/-- `load_settings` in settings.py: the parsed file if present and readable,
the default mapping otherwise (the exception is caught and logged). -/
def load_settings : FileRead → SettingsMap
  | .absent => DEFAULT_SETTINGS
  | .failure _ => DEFAULT_SETTINGS
  | .content m => m

/-- Python `dict.get`/`in`: first occurrence lookup. -/
def lookupJ : SettingsMap → String → Option JVal
  | [], _ => none
  | (k', v) :: rest, k => if k' = k then some v else lookupJ rest k

/-- Python `dict[k] = v`: replace the first occurrence or append. -/
def setKey : SettingsMap → String → JVal → SettingsMap
  | [], k, v => [(k, v)]
  | (k', v') :: rest, k, v =>
      if k' = k then (k, v) :: rest else (k', v') :: setKey rest k v

/-- Value of `m.get("registration_open", True)`. -/
def regOpenValue (m : SettingsMap) : JVal :=
  (lookupJ m "registration_open").getD (.bool true)

/-- GET `/api/admin/settings` (`get_settings` in settings.py): loads the
mapping and answers `registration_open` defaulting to true. The response
model validates the value to a boolean; validation happens inside the `try`,
so a non-boolean stored value falls to the handler's `except`, which also
returns the default true. -/
def get_settings (fr : FileRead) : Bool :=
  match regOpenValue (load_settings fr) with
  | .bool b => b
  | _ => true

/-- GET `/api/admin/settings/public/registration-status`
(`get_registration_status` in settings.py): same load, but the body is a raw
dict, so the stored JSON value is passed through untouched. -/
def get_registration_status (fr : FileRead) : JVal :=
  regOpenValue (load_settings fr)

/-- The mapping after the conditional field assignment in `update_settings`
(`if request.registration_open is not None: current_settings[...] = ...`).
The request field is `Optional[bool]`; an absent field and an explicit null
both parse to `None`, hence `Option.none` here. -/
def applyUpd (m : SettingsMap) : Option Bool → SettingsMap
  | some b => setKey m "registration_open" (.bool b)
  | none => m

/-- PATCH `/api/admin/settings` (`update_settings` in settings.py), returning
the HTTP outcome and the settings file state afterwards. `saveOk` is whether
`save_settings` succeeds; on a failed save the endpoint raises 500 and the
file is modelled unchanged. On a successful save the file holds the updated
mapping; the response echoes `current_settings.get("registration_open", True)`
validated to a boolean — a non-boolean there raises inside the `try` after the
save and is re-surfaced by the outer `except` as a 500. -/
def update_settings (fr : FileRead) (saveOk : Bool) (reqOpen : Option Bool) :
    Except HttpError Bool × FileRead :=
  let current' := applyUpd (load_settings fr) reqOpen
  if saveOk then
    match regOpenValue current' with
    | .bool b => (.ok b, .content current')
    | _ =>
        (.error ⟨500, "Failed to update settings: response validation error"⟩,
         .content current')
  else
    (.error ⟨500, "Failed to save settings"⟩, fr)

/-!
Concrete store oracles used by the witness theorems.
-/

/-- A list store that rejects the full query of page 1, limit 10, search "x"
with a search-capability error and answers anything else with an empty page. -/
def storeW1 : ListStore := fun q =>
  if q = fullQueries 1 10 (some "x") none then .error "Search index fulltext missing"
  else .ok ⟨[], 0⟩

/-- A list store that fails every query. -/
def storeWFail : ListStore := fun _ => .error "Service unavailable"

/-!
Helper lemmas about the settings mapping operations.
-/

/-- Assignment then lookup of the same key finds the assigned value. -/
theorem lookupJ_setKey_same (m : SettingsMap) (k : String) (v : JVal) :
    lookupJ (setKey m k v) k = some v := by
  induction m with
  | nil => simp [setKey, lookupJ]
  | cons kv rest ih =>
    obtain ⟨k0, v0⟩ := kv
    by_cases h0 : k0 = k
    · simp [setKey, lookupJ, h0]
    · simp [setKey, lookupJ, h0, ih]

/-- Assignment leaves lookups of every other key unchanged. -/
theorem lookupJ_setKey_other (m : SettingsMap) (k k' : String) (v : JVal)
    (h : k' ≠ k) : lookupJ (setKey m k v) k' = lookupJ m k' := by
  induction m with
  | nil => simp [setKey, lookupJ, Ne.symm h]
  | cons kv rest ih =>
    obtain ⟨k0, v0⟩ := kv
    by_cases h0 : k0 = k
    · subst h0
      simp [setKey, lookupJ, Ne.symm h]
    · simp [setKey, lookupJ, h0, ih]

/-- C2: the login operation succeeds exactly on the pair ("admin", "0000"),
returning a user with role "administrator" and a login timestamp; every other
pair gets a 401 error, and the error response is identical for any two
invalid pairs, never revealing which field was wrong. -/
theorem c2_login_exact_credentials (now u p : String) :
    (u = "admin" ∧ p = "0000" →
      admin_login now u p =
        .ok ⟨true, "Login successful", some ⟨"admin", "administrator", now⟩⟩) ∧
    (¬(u = "admin" ∧ p = "0000") →
      admin_login now u p = .error ⟨401, "Invalid credentials"⟩) ∧
    (∀ u2 p2, ¬(u = "admin" ∧ p = "0000") → ¬(u2 = "admin" ∧ p2 = "0000") →
      admin_login now u p = admin_login now u2 p2) := by
  have key : ∀ a b : String, ¬(a = "admin" ∧ b = "0000") →
      admin_login now a b = .error ⟨401, "Invalid credentials"⟩ := by
    intro a b h
    unfold admin_login
    rw [if_neg]
    simpa using h
  refine ⟨fun h => ?_, key u p, fun u2 p2 h h2 => by rw [key u p h, key u2 p2 h2]⟩
  obtain ⟨h1, h2⟩ := h
  subst h1; subst h2
  rfl

/-- Witness for C2 at the concrete pairs ("admin","0000"), ("root","1234"),
("admin","9999"). -/
theorem c2_witness :
    admin_login "2024-01-01T00:00:00" "admin" "0000" =
      .ok ⟨true, "Login successful",
           some ⟨"admin", "administrator", "2024-01-01T00:00:00"⟩⟩ ∧
    admin_login "2024-01-01T00:00:00" "root" "1234" =
      .error ⟨401, "Invalid credentials"⟩ ∧
    admin_login "2024-01-01T00:00:00" "root" "1234" =
      admin_login "2024-01-01T00:00:00" "admin" "9999" :=
  ⟨(c2_login_exact_credentials "2024-01-01T00:00:00" "admin" "0000").1 ⟨rfl, rfl⟩,
   (c2_login_exact_credentials "2024-01-01T00:00:00" "root" "1234").2.1
     (fun h => absurd h.1 (by decide)),
   (c2_login_exact_credentials "2024-01-01T00:00:00" "root" "1234").2.2
     "admin" "9999" (fun h => absurd h.1 (by decide))
     (fun h => absurd h.2 (by decide))⟩

/-- C3: for every status outside the enum {pending, approved, rejected}, the
status-update endpoint answers 400 and makes zero store calls. -/
theorem c3_invalid_status_rejected_before_store
    (store : String → String → Except String Doc) (id st : String)
    (h : st ≠ "pending" ∧ st ≠ "approved" ∧ st ≠ "rejected") :
    update_registration_status store id st =
      (.error ⟨400, "Invalid status. Must be: pending, approved, or rejected"⟩,
       0) := by
  have hc : (st == "pending" || st == "approved" || st == "rejected") = false := by
    simp [h.1, h.2.1, h.2.2]
  unfold update_registration_status
  rw [hc]
  rfl

/-- Witness for C3 at status "bogus" over a store that would succeed. -/
theorem c3_witness :
    update_registration_status (fun _ _ => .ok []) "reg1" "bogus" =
      (.error ⟨400, "Invalid status. Must be: pending, approved, or rejected"⟩,
       0) :=
  c3_invalid_status_rejected_before_store (fun _ _ => .ok []) "reg1" "bogus"
    ⟨by decide, by decide, by decide⟩

/-- C5: every settings read (admin get and the public registration-status
read) answers registration_open = true when the settings file is absent,
unreadable or unparsable, or when the loaded mapping lacks the
registration_open key; no error escapes (both reads are total functions). -/
theorem c5_settings_read_fail_soft :
    (get_settings .absent = true ∧
     get_registration_status .absent = .bool true) ∧
    (∀ msg, get_settings (.failure msg) = true ∧
            get_registration_status (.failure msg) = .bool true) ∧
    (∀ m, lookupJ m "registration_open" = none →
       get_settings (.content m) = true ∧
       get_registration_status (.content m) = .bool true) := by
  refine ⟨⟨rfl, rfl⟩, fun msg => ⟨rfl, rfl⟩, fun m hm => ⟨?_, ?_⟩⟩ <;>
    simp [get_settings, get_registration_status, regOpenValue, load_settings, hm]

/-- Witness for C5 on a parsed mapping that lacks the registration_open key. -/
theorem c5_witness :
    get_settings (.content [("theme", .str "dark")]) = true ∧
    get_registration_status (.content [("theme", .str "dark")]) = .bool true :=
  c5_settings_read_fail_soft.2.2 [("theme", .str "dark")] rfl

/-- C7: a successful settings update with registration_open = b responds with
b, and a subsequent settings get reads b back from the persisted file. -/
theorem c7_update_get_round_trip (fr : FileRead) (b : Bool) :
    (update_settings fr true (some b)).1 = .ok b ∧
    get_settings (update_settings fr true (some b)).2 = b := by
  have h : regOpenValue (applyUpd (load_settings fr) (some b)) = .bool b := by
    simp [applyUpd, regOpenValue, lookupJ_setKey_same]
  have hu : update_settings fr true (some b) =
      (.ok b, .content (applyUpd (load_settings fr) (some b))) := by
    unfold update_settings
    rw [if_pos rfl, h]
  refine ⟨by rw [hu], ?_⟩
  rw [hu]
  show (match regOpenValue (applyUpd (load_settings fr) (some b)) with
        | JVal.bool c => c
        | _ => true) = b
  rw [h]

/-- C1: when the first store call of the list endpoint fails with a message
indicating a search-capability error, exactly one retry is made, carrying
only the pagination filters with the same limit and the offset
(page - 1) * limit; a successful retry yields the 200 body
{data, total, page, limit} with no trace of the search error, while a failed
retry, or a first failure with a non-search-related message, is surfaced as
a 500 error. -/
theorem c1_list_search_fallback (store : ListStore) (page lim : Nat)
    (search status : Option String) (e : String)
    (hfail : store (fullQueries page lim search status) = .error e) :
    (strHas (pyLower e) "search" = true →
      (list_registrations store page lim search status).2 =
        [fullQueries page lim search status, fallbackQueries page lim] ∧
      (∀ r, store (fallbackQueries page lim) = .ok r →
        (list_registrations store page lim search status).1 =
          .ok ⟨r.documents, r.total, page, lim⟩) ∧
      (∀ e2, store (fallbackQueries page lim) = .error e2 →
        (list_registrations store page lim search status).1 =
          .error ⟨500, "Failed to list registrations: " ++ e⟩)) ∧
    (strHas (pyLower e) "search" = false →
      (list_registrations store page lim search status).2 =
        [fullQueries page lim search status] ∧
      (list_registrations store page lim search status).1 =
        .error ⟨500, "Failed to list registrations: " ++ e⟩) := by
  constructor
  · intro hs
    refine ⟨?_, ?_, ?_⟩
    · cases hfb : store (fallbackQueries page lim) <;>
        simp [list_registrations, hfail, hs, hfb]
    · intro r hr
      simp [list_registrations, hfail, hs, hr]
    · intro e2 he2
      simp [list_registrations, hfail, hs, he2]
  · intro hs
    constructor <;> simp [list_registrations, hfail, hs]

/-- Witness for C1: storeW1 fails the full query of page 1, limit 10,
search "x" with a search-capability message and serves the pagination-only
retry an empty page, so the endpoint answers 200 with empty data. -/
theorem c1_witness :
    (list_registrations storeW1 1 10 (some "x") none).2 =
      [fullQueries 1 10 (some "x") none, fallbackQueries 1 10] ∧
    (list_registrations storeW1 1 10 (some "x") none).1 = .ok ⟨[], 0, 1, 10⟩ :=
  ⟨((c1_list_search_fallback storeW1 1 10 (some "x") none
      "Search index fulltext missing" rfl).1 (by decide)).1,
   ((c1_list_search_fallback storeW1 1 10 (some "x") none
      "Search index fulltext missing" rfl).1 (by decide)).2.1 ⟨[], 0⟩ rfl⟩

/-- C4: the stats endpoint is fail-soft: its result type admits no error, and
if any of the four count queries fails, the body is all-zero counts even
when some of the queries succeed. -/
theorem c4_stats_fail_soft (store : ListStore)
    (h : (∃ e, store statsQueryTotal = .error e) ∨
         (∃ e, store (statsQueryFor "pending") = .error e) ∨
         (∃ e, store (statsQueryFor "approved") = .error e) ∨
         (∃ e, store (statsQueryFor "rejected") = .error e)) :
    get_stats store = ⟨0, 0, 0, 0⟩ := by
  unfold get_stats
  cases h1 : store statsQueryTotal with
  | error e1 => rfl
  | ok t =>
    cases h2 : store (statsQueryFor "pending") with
    | error e2 => rfl
    | ok p =>
      cases h3 : store (statsQueryFor "approved") with
      | error e3 => rfl
      | ok a =>
        cases h4 : store (statsQueryFor "rejected") with
        | error e4 => rfl
        | ok r =>
          rcases h with ⟨e, he⟩ | ⟨e, he⟩ | ⟨e, he⟩ | ⟨e, he⟩ <;> simp_all

/-- Witness for C4 on a store that fails every query. -/
theorem c4_witness : get_stats storeWFail = ⟨0, 0, 0, 0⟩ :=
  c4_stats_fail_soft storeWFail (Or.inl ⟨"Service unavailable", rfl⟩)

/-- C6: for the get, update-status (with a valid status), and delete
endpoints, a store failure whose message signals not-found maps to a 404,
and every other store failure maps to a 500 carrying the failure message;
the two cases are exhaustive, so no other status code arises on the error
path. -/
theorem c6_store_failure_maps_404_or_500
    (gstore : String → Except String Doc)
    (ustore : String → String → Except String Doc)
    (dstore : String → Except String Unit)
    (id st e : String)
    (hst : st = "pending" ∨ st = "approved" ∨ st = "rejected")
    (hg : gstore id = .error e)
    (hu : ustore id st = .error e)
    (hd : dstore id = .error e) :
    (isNotFoundSignal e = true →
      get_registration gstore id = .error ⟨404, "Registration not found"⟩ ∧
      (update_registration_status ustore id st).1 =
        .error ⟨404, "Registration not found"⟩ ∧
      delete_registration dstore id =
        .error ⟨404, "Registration not found"⟩) ∧
    (isNotFoundSignal e = false →
      get_registration gstore id =
        .error ⟨500, "Failed to get registration: " ++ e⟩ ∧
      (update_registration_status ustore id st).1 =
        .error ⟨500, "Failed to update registration: " ++ e⟩ ∧
      delete_registration dstore id =
        .error ⟨500, "Failed to delete registration: " ++ e⟩) := by
  have hval : (st == "pending" || st == "approved" || st == "rejected") = true := by
    rcases hst with h | h | h <;> simp [h]
  constructor <;> intro hnf <;> refine ⟨?_, ?_, ?_⟩ <;>
    simp [get_registration, update_registration_status, delete_registration,
          hg, hu, hd, hnf, hval]

/-- Witness for C6: the message "Document not found" signals not-found, so
all three endpoints answer 404 on it. -/
theorem c6_witness :
    get_registration (fun _ => .error "Document not found") "r1" =
      .error ⟨404, "Registration not found"⟩ ∧
    (update_registration_status (fun _ _ => .error "Document not found")
      "r1" "approved").1 = .error ⟨404, "Registration not found"⟩ ∧
    delete_registration (fun _ => .error "Document not found") "r1" =
      .error ⟨404, "Registration not found"⟩ :=
  (c6_store_failure_maps_404_or_500
    (fun _ => .error "Document not found")
    (fun _ _ => .error "Document not found")
    (fun _ => .error "Document not found")
    "r1" "approved" "Document not found"
    (Or.inr (Or.inl rfl)) rfl rfl rfl).1 (by decide)

/-- Wellformedness of a settings mapping: registration_open, if present,
holds a boolean (the spec's data model for the recognized key). -/
def goodRegOpen (m : SettingsMap) : Bool :=
  match lookupJ m "registration_open" with
  | none => true
  | some (.bool _) => true
  | some _ => false

/-- C8: a settings update whose registration_open field is absent (parsed to
None, indistinguishable from an explicit null) leaves the stored
registration_open value unchanged and responds with that value, and a save
failure surfaces as a 500. -/
theorem c8_absent_field_leaves_value (fr : FileRead)
    (h : goodRegOpen (load_settings fr) = true) :
    (update_settings fr true none).1 = .ok (get_settings fr) ∧
    get_settings (update_settings fr true none).2 = get_settings fr ∧
    (∀ fr2 req, (update_settings fr2 false req).1 =
      .error ⟨500, "Failed to save settings"⟩) := by
  have hm : regOpenValue (load_settings fr) = .bool (get_settings fr) := by
    unfold goodRegOpen at h
    cases hl : lookupJ (load_settings fr) "registration_open" with
    | none => simp [regOpenValue, get_settings, hl]
    | some v =>
      cases v <;> rw [hl] at h <;> simp_all [regOpenValue, get_settings, hl]
  have hu : update_settings fr true none =
      (.ok (get_settings fr), .content (load_settings fr)) := by
    unfold update_settings
    rw [if_pos rfl]
    show (match regOpenValue (applyUpd (load_settings fr) none) with
          | JVal.bool b =>
              ((Except.ok b : Except HttpError Bool),
               FileRead.content (applyUpd (load_settings fr) none))
          | _ =>
              (.error ⟨500,
                 "Failed to update settings: response validation error"⟩,
               .content (applyUpd (load_settings fr) none))) =
        (.ok (get_settings fr), .content (load_settings fr))
    have : applyUpd (load_settings fr) none = load_settings fr := rfl
    rw [this, hm]
  refine ⟨by rw [hu], ?_, fun fr2 req => by simp [update_settings]⟩
  rw [hu]
  show (match regOpenValue (load_settings fr) with
        | JVal.bool c => c
        | _ => true) = get_settings fr
  rw [hm]

/-- Witness for C8 on a file holding registration_open = false. -/
theorem c8_witness :
    (update_settings (.content [("registration_open", .bool false)])
        true none).1 =
      .ok (get_settings (.content [("registration_open", .bool false)])) ∧
    get_settings (update_settings (.content [("registration_open", .bool false)])
        true none).2 =
      get_settings (.content [("registration_open", .bool false)]) ∧
    (update_settings (.content [("registration_open", .bool false)])
        false none).1 = .error ⟨500, "Failed to save settings"⟩ :=
  have h := c8_absent_field_leaves_value
    (.content [("registration_open", .bool false)]) (by decide)
  ⟨h.1, h.2.1, h.2.2 (.content [("registration_open", .bool false)]) none⟩

/-- C9: a list call whose status argument is a non-empty string outside the
enum {pending, approved, rejected} contributes no status equality filter, is
not rejected with a validation error, and behaves exactly as a call with no
status argument (same responses and same store calls against every store). -/
theorem c9_invalid_status_silently_ignored (s : String)
    (_hne : s ≠ "")
    (hinv : s ≠ "pending" ∧ s ≠ "approved" ∧ s ≠ "rejected") :
    statusQueries (some s) = [] ∧
    (∀ page lim search a v,
      AppwriteQuery.equal a v ∉ fullQueries page lim search (some s)) ∧
    (∀ store page lim search,
      list_registrations store page lim search (some s) =
        list_registrations store page lim search none) := by
  have h0 : statusQueries (some s) = [] := by
    simp [statusQueries, hinv.1, hinv.2.1, hinv.2.2]
  have hq : ∀ page lim search, fullQueries page lim search (some s) =
      fullQueries page lim search none := by
    intro page lim search
    unfold fullQueries
    rw [h0]
    rfl
  refine ⟨h0, fun page lim search a v => ?_, fun store page lim search => ?_⟩
  · rw [hq]
    unfold fullQueries
    cases search with
    | none => simp [statusQueries, searchQueries]
    | some s2 =>
      simp only [statusQueries, searchQueries, List.nil_append]
      by_cases h2 : s2 = ""
      · simp [h2]
      · simp [h2]
  · unfold list_registrations
    rw [hq]

/-- Witness for C9 at status "bogus", page 1, limit 10, no search, over a
store that serves one document. -/
theorem c9_witness :
    statusQueries (some "bogus") = [] ∧
    AppwriteQuery.equal "status" "bogus" ∉ fullQueries 1 10 none (some "bogus") ∧
    list_registrations (fun _ => .ok ⟨[[("team_name", "alpha")]], 1⟩)
        1 10 none (some "bogus") =
      list_registrations (fun _ => .ok ⟨[[("team_name", "alpha")]], 1⟩)
        1 10 none none :=
  have h := c9_invalid_status_silently_ignored "bogus" (by decide)
    ⟨by decide, by decide, by decide⟩
  ⟨h.1, h.2.1 1 10 none "status" "bogus",
   h.2.2 (fun _ => .ok ⟨[[("team_name", "alpha")]], 1⟩) 1 10 none⟩

/-- C10: a successful settings update persists exactly the updated loaded
mapping, and every key other than registration_open is read back from the
saved mapping with its value unchanged. -/
theorem c10_unknown_keys_preserved (fr : FileRead) (req : Option Bool)
    (k : String) (hk : k ≠ "registration_open") :
    (update_settings fr true req).2 =
      .content (applyUpd (load_settings fr) req) ∧
    lookupJ (applyUpd (load_settings fr) req) k =
      lookupJ (load_settings fr) k := by
  constructor
  · unfold update_settings
    rw [if_pos rfl]
    split <;> rfl
  · cases req with
    | none => rfl
    | some b => exact lookupJ_setKey_other _ _ _ _ hk

/-- Witness for C10: updating registration_open to false preserves the
unrecognized key "theme". -/
theorem c10_witness :
    (update_settings
        (.content [("theme", .str "dark"), ("registration_open", .bool true)])
        true (some false)).2 =
      .content (applyUpd
        (load_settings
          (.content [("theme", .str "dark"), ("registration_open", .bool true)]))
        (some false)) ∧
    lookupJ (applyUpd
        (load_settings
          (.content [("theme", .str "dark"), ("registration_open", .bool true)]))
        (some false)) "theme" =
      lookupJ (load_settings
        (.content [("theme", .str "dark"), ("registration_open", .bool true)]))
        "theme" :=
  c10_unknown_keys_preserved
    (.content [("theme", .str "dark"), ("registration_open", .bool true)])
    (some false) "theme" (by decide)
